import Mathlib

/-!
Verification development for the MoltShell terminal server (Session Gateway).

The definitions below are a shallow embedding of `server/index.ts` (the
WebSocket connection handler) and `server/pty-handler.ts` (the tmux adapter
and PTY bridge).  External effects (execSync calls into tmux, node-pty
spawn/resize) are modelled as explicit state on a `TmuxWorld` value and as
`Except`-returning primitives whose `catch` branches mirror the try/catch
blocks in the source.
-/

namespace TerminalServer

/-- Reserved tmux-session naming tag, the string literal `sandbox-` used
throughout `pty-handler.ts`. -/
def sandboxTag : String := "sandbox-"

/-- Derived multiplexer-side session name: `sandbox-` ++ sessionId
(see `killTmuxSession` and `createPtyHandler` in pty-handler.ts). -/
def derivedName (sessionId : String) : String := sandboxTag ++ sessionId

/-- Boolean list-prefix test (semantics of JS `String.prototype.startsWith`
applied to the character lists of the strings). -/
def listPre : List Char → List Char → Bool
  | [], _ => true
  | _ :: _, [] => false
  | a :: as, b :: bs => a = b && listPre as bs

/-- JS `s.startsWith(p)`: `p.data` is a list-prefix of `s.data`. -/
def strStartsWith (s p : String) : Bool := listPre p.data s.data

/-- Index of the first occurrence of `pat` inside a character list, if any
(the search JS `String.prototype.replace` with a string pattern performs). -/
def findSub (pat : List Char) : List Char → Option Nat
  | [] => if listPre pat [] then some 0 else none
  | c :: cs => if listPre pat (c :: cs) then some 0 else (findSub pat cs).map (· + 1)

/-- JS `s.replace(pat, repl)` with a string pattern: replaces only the FIRST
occurrence of `pat` in `s`, or returns `s` unchanged when `pat` does not
occur.  Used by `listTmuxSessions` as `.replace('sandbox-', '')`. -/
def jsReplaceFirst (s pat repl : String) : String :=
  match findSub pat.data s.data with
  | some i => ⟨s.data.take i ++ repl.data ++ s.data.drop (i + pat.data.length)⟩
  | none => s

/-- State of the external tmux multiplexer, as observed through the adapter
functions of pty-handler.ts: whether the tmux server is reachable, which
named sessions are alive, and whether the global mouse option is on. -/
structure TmuxWorld where
  reachable : Bool
  sessions : List String
  mouseGlobal : Bool
deriving DecidableEq, Repr

/-- Outcome of `execSync('tmux has-session -t name')`: exits 0 (ok) exactly
when the tmux server is reachable and the session exists; otherwise execSync
throws (error). -/
def execHasSession (w : TmuxWorld) (name : String) : Except Unit Unit :=
  if w.reachable ∧ name ∈ w.sessions then .ok () else .error ()

/-- tmuxSessionExists from pty-handler.ts: wraps the has-session call in
try/catch, returning false on any failure. -/
def tmuxSessionExists (w : TmuxWorld) (name : String) : Bool :=
  match execHasSession w name with
  | .ok _ => true
  | .error _ => false

/-- Outcome of `execSync('tmux kill-session -t name')`: kills the named
session when the server is reachable and the session exists, otherwise
throws. -/
def execKillSession (w : TmuxWorld) (name : String) : Except Unit TmuxWorld :=
  if w.reachable ∧ name ∈ w.sessions then
    .ok { w with sessions := w.sessions.erase name }
  else .error ()

/-- killTmuxSession from pty-handler.ts: derives the name with the
`sandbox-` tag and kills it, swallowing the exception when the session does
not exist (the catch branch commented "Session may not exist"). -/
def killTmuxSession (w : TmuxWorld) (sessionId : String) : TmuxWorld :=
  match execKillSession w (derivedName sessionId) with
  | .ok w2 => w2
  | .error _ => w

/-- Outcome of `execSync("tmux list-sessions -F '#{session_name}'")`: yields
one session name per line when the server is reachable and has at least one
session; otherwise tmux exits nonzero and execSync throws.  The
split-by-newline-and-trim stage of listTmuxSessions is the inverse of this
line formatting, so the primitive is modelled as returning the name list. -/
def execListSessions (w : TmuxWorld) : Except Unit (List String) :=
  if w.reachable ∧ w.sessions ≠ [] then .ok w.sessions else .error ()

/-- listTmuxSessions from pty-handler.ts: on success filters the names that
start with `sandbox-` and strips the tag via `.replace('sandbox-', '')`
(first occurrence only); on any failure returns the empty list (the catch
branch commented "tmux not running or no sessions"). -/
def listTmuxSessions (w : TmuxWorld) : List String :=
  match execListSessions w with
  | .ok names =>
      (names.filter (fun s => strStartsWith s sandboxTag)).map
        (fun s => jsReplaceFirst s sandboxTag "")
  | .error _ => []

/-- The slice of `process.env` the gateway reads when spawning: HOME and
SHELL.  A missing variable is `none`; JS truthiness makes the empty string
behave like a missing one in the `||` fallbacks. -/
structure Env where
  HOME : Option String
  SHELL : Option String
deriving DecidableEq, Repr

/-- JS truthiness of an optional string (`undefined` and `''` are falsy). -/
def strTruthy : Option String → Bool
  | none => false
  | some s => s ≠ ""

/-- JS truthiness of an optional number field (`undefined`, `0` and `NaN`
are falsy; every other number, including negatives, is truthy). -/
def numTruthy : Option Int → Bool
  | none => false
  | some n => n ≠ 0

/-- Fallback shell of createPtyHandler when tmux is unavailable:
`process.env.SHELL || (os.platform() === 'win32' ? 'powershell.exe' : 'bash')`. -/
def shellFallback (env : Env) (platform : String) : String :=
  match env.SHELL with
  | some s =>
      if s = "" then (if platform = "win32" then "powershell.exe" else "bash") else s
  | none => if platform = "win32" then "powershell.exe" else "bash"

/-- Working directory passed to pty.spawn:
`cwd: process.env.HOME || process.cwd()`. -/
def spawnCwd (env : Env) (procCwd : String) : String :=
  match env.HOME with
  | some h => if h = "" then procCwd else h
  | none => procCwd

/-- State of one spawned PTY bridge process: liveness, the terminal
geometry last accepted by the underlying pty, and the data written to the
process input stream (in order). -/
structure PtyState where
  alive : Bool
  cols : Int
  rows : Int
  written : List String
deriving DecidableEq, Repr

/-- The PTY state node-pty hands back on a successful spawn: the default
80x24 geometry from the pty.spawn options in createPtyHandler. -/
def freshPty : PtyState := { alive := true, cols := 80, rows := 24, written := [] }

/-- node-pty `ptyProcess.resize(cols, rows)`: validates its arguments and
throws on non-positive dimensions ("resizing must be done using positive
cols and rows"), otherwise updates the terminal geometry.  External library
contract, modelled as an Except. -/
def ptyProcessResize (p : PtyState) (cols rows : Int) : Except Unit PtyState :=
  if 0 < cols ∧ 0 < rows then .ok { p with cols := cols, rows := rows }
  else .error ()

/-- The bridge `resize` method of createPtyHandler: forwards to
ptyProcess.resize inside try/catch, logging and keeping the old geometry on
failure. -/
def ptyResize (p : PtyState) (cols rows : Int) : PtyState :=
  match ptyProcessResize p cols rows with
  | .ok p2 => p2
  | .error _ => p

/-- The bridge `write` method: forwards the data verbatim to the process
input stream. -/
def ptyWrite (p : PtyState) (data : String) : PtyState :=
  { p with written := p.written ++ [data] }

/-- The bridge `kill` method: terminates the attachment process; the
try/catch makes it a no-op beyond clearing liveness when the process has
already exited. -/
def ptyKill (p : PtyState) : PtyState := { p with alive := false }

/-- Spawn invocation assembled by createPtyHandler: executable, argument
list, working directory and the initial geometry of the pty.spawn options. -/
structure SpawnPlan where
  file : String
  args : List String
  cwd : String
  cols : Int
  rows : Int
deriving DecidableEq, Repr

/-- Outcome of `pty.spawn(...)`: either a live PTY process or a thrown
error (executable missing, etc.).  The Boolean oracle stands for the
environment-determined success of the external spawn. -/
def ptySpawn (spawnOk : Bool) : Except Unit PtyState :=
  if spawnOk then .ok freshPty else .error ()

/-- Result of createPtyHandler: the bridge (or `null` on spawn failure),
the tmux world after the spawn side effect, and the spawn invocation it
chose. -/
structure CreateResult where
  pty : Option PtyState
  world : TmuxWorld
  plan : SpawnPlan
deriving DecidableEq, Repr

/-- createPtyHandler from pty-handler.ts.  `useTmux` is the result of the
`hasTmux()` probe and `spawnOk` the outcome of the external pty.spawn call.
With tmux available it attaches to the derived session name when it exists
and otherwise spawns `tmux new-session` (which, when the spawn succeeds,
starts the tmux server if needed and creates the session); without tmux it
falls back to a plain shell with no arguments.  The catch branch turns a
spawn failure into a `null` result instead of an exception. -/
def createPtyHandler (useTmux spawnOk : Bool) (w : TmuxWorld) (sessionId : String)
    (env : Env) (platform procCwd : String) : CreateResult :=
  let name := derivedName sessionId
  let plan : SpawnPlan :=
    if useTmux then
      if tmuxSessionExists w name then
        { file := "tmux", args := ["attach-session", "-t", name],
          cwd := spawnCwd env procCwd, cols := 80, rows := 24 }
      else
        { file := "tmux", args := ["new-session", "-s", name],
          cwd := spawnCwd env procCwd, cols := 80, rows := 24 }
    else
      { file := shellFallback env platform, args := [],
        cwd := spawnCwd env procCwd, cols := 80, rows := 24 }
  match ptySpawn spawnOk with
  | .ok p =>
      { pty := some p,
        world :=
          if useTmux ∧ ¬ tmuxSessionExists w name then
            { w with reachable := true, sessions := name :: w.sessions }
          else w,
        plan := plan }
  | .error _ => { pty := none, world := w, plan := plan }

/-- ensureDefaultSession from pty-handler.ts: returns immediately without
tmux; otherwise creates the detached `sandbox-default` session when absent,
then issues a single `tmux set -g mouse on` inside try/catch (the catch
comments "tmux server may not be running yet").  `setOutcomes` is the
oracle of outcomes successive set attempts would have; the code consumes
only the first. -/
def ensureDefaultSession (hasTmuxB : Bool) (setOutcomes : List Bool)
    (w : TmuxWorld) : TmuxWorld :=
  if hasTmuxB then
    let w1 :=
      if tmuxSessionExists w "sandbox-default" then w
      else { w with reachable := true, sessions := "sandbox-default" :: w.sessions }
    if setOutcomes.getD 0 false then { w1 with mouseGlobal := true } else w1
  else w

/-- Parsed client message, the closed tagged variant dispatched on
`msg.type` in the ws message handler of index.ts.  `resize` carries the
optional numeric fields as they arrive; `other` is any unknown
discriminant, which falls through the switch. -/
inductive ClientMsg where
  | input (data : String)
  | resize (cols rows : Option Int)
  | closeSession
  | other (ty : String)
deriving DecidableEq, Repr

/-- Observable calls the connection handler makes while processing one
event: writes and resizes forwarded to the bridge, messages sent on the
socket, socket closure, and the heartbeat reportActivity call. -/
inductive Effect where
  | writePty (data : String)
  | resizePty (cols rows : Int)
  | sendOutput (data : String)
  | sendError (message : String)
  | closeConn
  | reportActivity
deriving DecidableEq, Repr

/-- Per-connection server state: the tmux world, the sessionId extracted
from the upgrade query, whether the WebSocket is open, and the bridge (none
once no bridge exists). -/
structure ServerState where
  world : TmuxWorld
  sessionId : String
  connOpen : Bool
  pty : Option PtyState
deriving DecidableEq, Repr

/-- The `ws.on('message')` handler of index.ts applied to one inbound
frame.  `none` models a frame on which JSON.parse throws: the catch branch
only logs, so the state is untouched and no effect is produced.  A parsed
message is dispatched on its discriminant: `input` writes to the bridge,
`resize` is guarded by the JS-truthiness test `msg.cols && msg.rows`,
`close-session` kills the bridge, kills the derived tmux session and closes
the socket (returning before reportActivity); every other fall-through path
ends with the reportActivity call. -/
def handleRawMessage (st : ServerState) (raw : Option ClientMsg) :
    ServerState × List Effect :=
  match raw with
  | none => (st, [])
  | some (.input d) =>
      ({ st with pty := st.pty.map (fun p => ptyWrite p d) },
       [Effect.writePty d, Effect.reportActivity])
  | some (.resize c r) =>
      if numTruthy c ∧ numTruthy r then
        let cv := c.getD 0
        let rv := r.getD 0
        ({ st with pty := st.pty.map (fun p => ptyResize p cv rv) },
         [Effect.resizePty cv rv, Effect.reportActivity])
      else (st, [Effect.reportActivity])
  | some .closeSession =>
      ({ st with pty := st.pty.map ptyKill,
                 world := killTmuxSession st.world st.sessionId,
                 connOpen := false },
       [Effect.closeConn])
  | some (.other _) => (st, [Effect.reportActivity])

/-- Events a live connection can receive: an inbound frame, or the
transport-level close and error events of index.ts. -/
inductive ConnEvent where
  | message (raw : Option ClientMsg)
  | transportClose
  | transportError
deriving DecidableEq, Repr

/-- Teardown shared by `ws.on('close')` and `ws.on('error')`: clear the
heartbeat timer and kill the bridge; the tmux world is not touched. -/
def tearDown (st : ServerState) : ServerState :=
  { st with pty := st.pty.map ptyKill, connOpen := false }

/-- One step of the per-connection event loop of index.ts. -/
def handleEvent (st : ServerState) : ConnEvent → ServerState × List Effect
  | .message raw => handleRawMessage st raw
  | .transportClose => (tearDown st, [])
  | .transportError => (tearDown st, [])

/-- The start of the `wss.on('connection')` handler of index.ts after
createPtyHandler returns: on a `null` bridge it sends one structured error
message, closes the socket and returns; otherwise the connection becomes
active with the created bridge. -/
def connectionSetup (sessionId : String) (cr : CreateResult) :
    ServerState × List Effect :=
  match cr.pty with
  | none =>
      ({ world := cr.world, sessionId := sessionId, connOpen := false, pty := none },
       [Effect.sendError "Failed to create PTY", Effect.closeConn])
  | some p =>
      ({ world := cr.world, sessionId := sessionId, connOpen := true, pty := some p },
       [])

/-- Recogniser for structured error messages in an effect trace. -/
def isErrorEffect : Effect → Bool
  | .sendError _ => true
  | _ => false

/-- Existence through the adapter holds exactly when the tmux server is
reachable and the name is among the live sessions. -/
theorem tmuxSessionExists_iff (w : TmuxWorld) (name : String) :
    tmuxSessionExists w name = true ↔ w.reachable = true ∧ name ∈ w.sessions := by
  by_cases h : w.reachable = true ∧ name ∈ w.sessions
  · simp [tmuxSessionExists, execHasSession, h]
  · simp [tmuxSessionExists, execHasSession, h]

/-- Killing a session makes it non-existent (tmux keeps session names
unique, here expressed as Nodup of the live-session list). -/
theorem killTmuxSession_exists_false (w : TmuxWorld) (sid : String)
    (hnd : w.sessions.Nodup) :
    tmuxSessionExists (killTmuxSession w sid) (derivedName sid) = false := by
  by_cases h : w.reachable = true ∧ derivedName sid ∈ w.sessions
  · have hk : killTmuxSession w sid =
        { w with sessions := w.sessions.erase (derivedName sid) } := by
      simp [killTmuxSession, execKillSession, h]
    have hmem : derivedName sid ∉ w.sessions.erase (derivedName sid) := by
      rw [hnd.mem_erase_iff]
      simp
    rw [hk]
    simp [tmuxSessionExists, execHasSession, hmem]
  · have hk : killTmuxSession w sid = w := by
      simp [killTmuxSession, execKillSession, h]
    rw [hk]
    simp [tmuxSessionExists, execHasSession, h]

/-- Killing an absent session leaves the world untouched (the catch branch
of killTmuxSession). -/
theorem killTmuxSession_absent (w : TmuxWorld) (sid : String)
    (h : tmuxSessionExists w (derivedName sid) = false) :
    killTmuxSession w sid = w := by
  have h2 : ¬ (w.reachable = true ∧ derivedName sid ∈ w.sessions) := by
    intro hc
    have := (tmuxSessionExists_iff w (derivedName sid)).mpr hc
    rw [h] at this
    cases this
  simp [killTmuxSession, execKillSession, h2]

/-- Characterisation of the boolean list-prefix test. -/
theorem listPre_iff (p : List Char) : ∀ s : List Char,
    listPre p s = true ↔ ∃ t, s = p ++ t := by
  induction p with
  | nil =>
    intro s
    constructor
    · intro _
      exact ⟨s, rfl⟩
    · intro _
      rfl
  | cons a as ih =>
    intro s
    cases s with
    | nil =>
      constructor
      · intro h
        exact absurd h (by simp [listPre])
      · rintro ⟨t, ht⟩
        cases ht
    | cons b bs =>
      constructor
      · intro h
        have hab : a = b ∧ listPre as bs = true := by
          simpa [listPre, Bool.and_eq_true, decide_eq_true_eq] using h
        obtain ⟨t, ht⟩ := (ih bs).mp hab.2
        exact ⟨t, by simp [hab.1, ht]⟩
      · rintro ⟨t, ht⟩
        injection ht with h1 h2
        have hpre : listPre as bs = true := (ih bs).mpr ⟨t, h2⟩
        simp [listPre, h1, hpre]

/-- Stripping a leading tag with the first-occurrence replace and putting
the tag back recovers the original name. -/
theorem jsReplaceFirst_of_pre (s p : String) (hp : p.data ≠ [])
    (h : strStartsWith s p = true) :
    p ++ jsReplaceFirst s p "" = s := by
  obtain ⟨t, ht⟩ := (listPre_iff p.data s.data).mp h
  have hsd : s.data ≠ [] := by
    intro h0
    have hnil : p.data ++ t = [] := by rw [← ht, h0]
    exact hp (List.append_eq_nil.mp hnil).1
  obtain ⟨c, cs, hcs⟩ := List.exists_cons_of_ne_nil hsd
  have h2 : listPre p.data (c :: cs) = true := by
    rw [← hcs]
    exact h
  have hfind : findSub p.data s.data = some 0 := by
    rw [hcs]
    simp [findSub, h2]
  have hrep : jsReplaceFirst s p "" = ⟨s.data.drop p.data.length⟩ := by
    simp [jsReplaceFirst, hfind]
  rw [hrep]
  apply String.ext
  rw [String.data_append]
  show p.data ++ s.data.drop p.data.length = s.data
  rw [ht, List.drop_left]

/-- Every name produced by listTmuxSessions comes from a live session whose
name is the sandbox tag followed by the returned identifier. -/
theorem listTmuxSessions_mem (w : TmuxWorld) (s : String)
    (h : s ∈ listTmuxSessions w) :
    ∃ n ∈ w.sessions, n = sandboxTag ++ s := by
  by_cases hw : w.reachable = true ∧ w.sessions ≠ []
  · have hl : listTmuxSessions w =
        (w.sessions.filter (fun x => strStartsWith x sandboxTag)).map
          (fun x => jsReplaceFirst x sandboxTag "") := by
      simp [listTmuxSessions, execListSessions, hw]
    rw [hl] at h
    obtain ⟨n, hn, hns⟩ := List.mem_map.mp h
    obtain ⟨hnmem, hnpre⟩ := List.mem_filter.mp hn
    refine ⟨n, hnmem, ?_⟩
    rw [← hns]
    exact (jsReplaceFirst_of_pre n sandboxTag (by decide) hnpre).symm
  · have hl : listTmuxSessions w = [] := by
      simp [listTmuxSessions, execListSessions, hw]
    rw [hl] at h
    cases h

/-- Claim C1: for every open Connection with session identifier S, a
well-formed `close-session` message kills the Bridge, kills the multiplexed
session named `sandbox-` ++ S, and closes the Connection, so that
afterwards the derived session no longer exists. -/
theorem claim_C1_close_session (st : ServerState)
    (hnd : st.world.sessions.Nodup) :
    tmuxSessionExists (handleRawMessage st (some ClientMsg.closeSession)).1.world
        (derivedName st.sessionId) = false ∧
    (handleRawMessage st (some ClientMsg.closeSession)).1.connOpen = false ∧
    (∀ p, (handleRawMessage st (some ClientMsg.closeSession)).1.pty = some p →
        p.alive = false) ∧
    Effect.closeConn ∈ (handleRawMessage st (some ClientMsg.closeSession)).2 := by
  refine ⟨?_, rfl, ?_, ?_⟩
  · simpa [handleRawMessage] using
      killTmuxSession_exists_false st.world st.sessionId hnd
  · intro p hp
    cases hq : st.pty with
    | none => simp [handleRawMessage, hq] at hp
    | some q =>
      simp [handleRawMessage, hq, ptyKill] at hp
      rw [← hp]
  · simp [handleRawMessage]

/-- Witness for claim C1 at a concrete state with a live default session. -/
theorem claim_C1_close_session_witness :
    (ServerState.mk ⟨true, ["sandbox-default"], false⟩ "default" true
        (some freshPty)).world.sessions.Nodup ∧
    tmuxSessionExists
      (handleRawMessage
        (ServerState.mk ⟨true, ["sandbox-default"], false⟩ "default" true
          (some freshPty)) (some ClientMsg.closeSession)).1.world
      (derivedName "default") = false :=
  ⟨by decide,
   (claim_C1_close_session
      (ServerState.mk ⟨true, ["sandbox-default"], false⟩ "default" true
        (some freshPty)) (by decide)).1⟩

/-- Claim C2: ordinary transport close or error kills only the Bridge; the
tmux world (hence the durable session's existence) is unchanged by every
connection event except an explicit `close-session` message. -/
theorem claim_C2_transport_teardown_frame (st : ServerState) (e : ConnEvent)
    (h : e ≠ ConnEvent.message (some ClientMsg.closeSession)) :
    (handleEvent st e).1.world = st.world ∧
    ((e = ConnEvent.transportClose ∨ e = ConnEvent.transportError) →
      (handleEvent st e).1.connOpen = false ∧
      ∀ p, (handleEvent st e).1.pty = some p → p.alive = false) := by
  have hkill : ∀ p, st.pty.map ptyKill = some p → p.alive = false := by
    intro p hp
    cases hq : st.pty with
    | none => simp [hq] at hp
    | some q =>
      simp [hq, ptyKill] at hp
      rw [← hp]
  cases e with
  | message raw =>
    refine ⟨?_, by rintro (hc | hc) <;> cases hc⟩
    cases raw with
    | none => rfl
    | some m =>
      cases m with
      | input d => rfl
      | resize c r =>
        by_cases hg : numTruthy c = true ∧ numTruthy r = true
        · simp [handleEvent, handleRawMessage, hg]
        · simp [handleEvent, handleRawMessage, hg]
      | closeSession => exact absurd rfl h
      | other t => rfl
  | transportClose => exact ⟨rfl, fun _ => ⟨rfl, hkill⟩⟩
  | transportError => exact ⟨rfl, fun _ => ⟨rfl, hkill⟩⟩

/-- Witness for claim C2: transport close at a concrete state leaves the
tmux world untouched and kills the bridge. -/
theorem claim_C2_transport_teardown_frame_witness :
    (ConnEvent.transportClose ≠
      ConnEvent.message (some ClientMsg.closeSession)) ∧
    (handleEvent
        (ServerState.mk ⟨true, ["sandbox-default"], false⟩ "default" true
          (some freshPty)) ConnEvent.transportClose).1.world =
      (ServerState.mk ⟨true, ["sandbox-default"], false⟩ "default" true
        (some freshPty)).world ∧
    (ConnEvent.transportClose = ConnEvent.transportClose ∨
      ConnEvent.transportClose = ConnEvent.transportError) :=
  ⟨by decide,
   (claim_C2_transport_teardown_frame
      (ServerState.mk ⟨true, ["sandbox-default"], false⟩ "default" true
        (some freshPty)) ConnEvent.transportClose (by decide)).1,
   Or.inl rfl⟩

/-- Claim C4: an inbound frame that fails JSON parsing is dropped without
closing the Connection or touching any state, and a subsequent well-formed
`input` message on the same Connection is still written to the Bridge. -/
theorem claim_C4_malformed_dropped (st : ServerState) (d : String) :
    handleRawMessage st none = (st, []) ∧
    (handleRawMessage (handleRawMessage st none).1
        (some (ClientMsg.input d))).2 =
      [Effect.writePty d, Effect.reportActivity] ∧
    (handleRawMessage (handleRawMessage st none).1
        (some (ClientMsg.input d))).1.pty =
      st.pty.map (fun p => ptyWrite p d) :=
  ⟨rfl, rfl, rfl⟩

/-- Claim C7: when pty.spawn throws, createPtyHandler returns the null
sentinel instead of propagating the exception, and the connection handler
then sends exactly one structured error message and closes the socket, with
no further spawn attempt. -/
theorem claim_C7_spawn_failure (w : TmuxWorld) (sid : String) (env : Env)
    (plat procCwd : String) :
    (createPtyHandler true false w sid env plat procCwd).pty = none ∧
    (connectionSetup sid (createPtyHandler true false w sid env plat procCwd)).2 =
      [Effect.sendError "Failed to create PTY", Effect.closeConn] ∧
    ((connectionSetup sid
        (createPtyHandler true false w sid env plat procCwd)).2.filter
          isErrorEffect).length = 1 ∧
    (connectionSetup sid
        (createPtyHandler true false w sid env plat procCwd)).1.connOpen = false := by
  refine ⟨?_, ?_, ?_, ?_⟩ <;>
    simp [createPtyHandler, ptySpawn, connectionSetup, isErrorEffect]

/-- Claim C3: createPtyHandler attaches to the existing multiplexed session
exactly when the derived name exists and creates a new one only when it
does not; after a normal teardown (transport close or error, no
close-session) a subsequent createPtyHandler for the same identifier
reattaches instead of creating afresh. -/
theorem claim_C3_reattach :
    (∀ (w : TmuxWorld) (sid : String) (env : Env) (plat procCwd : String),
        tmuxSessionExists w (derivedName sid) = true →
        (createPtyHandler true true w sid env plat procCwd).plan.args =
          ["attach-session", "-t", derivedName sid] ∧
        (createPtyHandler true true w sid env plat procCwd).world = w) ∧
    (∀ (w : TmuxWorld) (sid : String) (env : Env) (plat procCwd : String),
        tmuxSessionExists w (derivedName sid) = false →
        (createPtyHandler true true w sid env plat procCwd).plan.args =
          ["new-session", "-s", derivedName sid] ∧
        tmuxSessionExists (createPtyHandler true true w sid env plat procCwd).world
          (derivedName sid) = true) ∧
    (∀ (w : TmuxWorld) (sid : String) (env : Env) (plat procCwd : String)
        (e : ConnEvent),
        tmuxSessionExists w (derivedName sid) = false →
        (e = ConnEvent.transportClose ∨ e = ConnEvent.transportError) →
        (createPtyHandler true true
            (handleEvent
              (ServerState.mk
                (createPtyHandler true true w sid env plat procCwd).world
                sid true (createPtyHandler true true w sid env plat procCwd).pty)
              e).1.world
            sid env plat procCwd).plan.args =
          ["attach-session", "-t", derivedName sid]) := by
  have hattach : ∀ (w : TmuxWorld) (sid : String) (env : Env) (plat procCwd : String),
      tmuxSessionExists w (derivedName sid) = true →
      (createPtyHandler true true w sid env plat procCwd).plan.args =
        ["attach-session", "-t", derivedName sid] ∧
      (createPtyHandler true true w sid env plat procCwd).world = w := by
    intro w sid env plat procCwd h
    constructor <;> simp [createPtyHandler, ptySpawn, h]
  have hcreate : ∀ (w : TmuxWorld) (sid : String) (env : Env) (plat procCwd : String),
      tmuxSessionExists w (derivedName sid) = false →
      (createPtyHandler true true w sid env plat procCwd).plan.args =
        ["new-session", "-s", derivedName sid] ∧
      (createPtyHandler true true w sid env plat procCwd).world =
        { w with reachable := true, sessions := derivedName sid :: w.sessions } := by
    intro w sid env plat procCwd h
    constructor <;> simp [createPtyHandler, ptySpawn, h]
  refine ⟨hattach, ?_, ?_⟩
  · intro w sid env plat procCwd h
    refine ⟨(hcreate w sid env plat procCwd h).1, ?_⟩
    rw [(hcreate w sid env plat procCwd h).2, tmuxSessionExists_iff]
    exact ⟨rfl, List.mem_cons_self _ _⟩
  · intro w sid env plat procCwd e h he
    have hw2 : (handleEvent
        (ServerState.mk (createPtyHandler true true w sid env plat procCwd).world
          sid true (createPtyHandler true true w sid env plat procCwd).pty) e).1.world =
        (createPtyHandler true true w sid env plat procCwd).world := by
      rcases he with rfl | rfl <;> rfl
    rw [hw2, (hcreate w sid env plat procCwd h).2]
    have htse : tmuxSessionExists
        { w with reachable := true, sessions := derivedName sid :: w.sessions }
        (derivedName sid) = true := by
      rw [tmuxSessionExists_iff]
      exact ⟨rfl, List.mem_cons_self _ _⟩
    exact ((hattach _ sid env plat procCwd htse).1)

/-- Witness for claim C3: a concrete world holding the derived session is
reattached, not re-created. -/
theorem claim_C3_reattach_witness :
    tmuxSessionExists ⟨true, ["sandbox-default"], false⟩
      (derivedName "default") = true ∧
    (createPtyHandler true true ⟨true, ["sandbox-default"], false⟩ "default"
        ⟨some "/home/moltshell", some "/bin/bash"⟩ "linux" "/srv").plan.args =
      ["attach-session", "-t", derivedName "default"] :=
  ⟨by decide,
   (claim_C3_reattach.1 ⟨true, ["sandbox-default"], false⟩ "default"
      ⟨some "/home/moltshell", some "/bin/bash"⟩ "linux" "/srv" (by decide)).1⟩

/-- Counterexample to claim C5 as stated: a resize message with the
non-positive dimension cols = -1 is not ignored — the JS truthiness guard
msg.cols and msg.rows accepts every nonzero number, so a resize call is
propagated to the Bridge (visible here as the resizePty effect). -/
theorem claim_C5_counterexample :
    (handleRawMessage
        (ServerState.mk ⟨true, ["sandbox-default"], false⟩ "default" true
          (some freshPty))
        (some (ClientMsg.resize (some (-1)) (some 24)))).2 =
      [Effect.resizePty (-1) 24, Effect.reportActivity] := by decide

/-- Claim C5 amended: a resize message in which either dimension is missing
or zero is ignored as a no-op (state unchanged, no resize forwarded); a
resize whose dimensions are nonzero but not both positive is forwarded to
the Bridge, whose underlying pty resize rejects it, so the terminal
geometry (indeed the whole connection state) still remains unchanged. -/
theorem claim_C5_amended :
    (∀ (st : ServerState) (c r : Option Int),
        numTruthy c = false ∨ numTruthy r = false →
        handleRawMessage st (some (ClientMsg.resize c r)) =
          (st, [Effect.reportActivity])) ∧
    (∀ (st : ServerState) (cv rv : Int),
        cv ≠ 0 → rv ≠ 0 → cv ≤ 0 ∨ rv ≤ 0 →
        (handleRawMessage st (some (ClientMsg.resize (some cv) (some rv)))).1 = st ∧
        (handleRawMessage st (some (ClientMsg.resize (some cv) (some rv)))).2 =
          [Effect.resizePty cv rv, Effect.reportActivity]) := by
  constructor
  · intro st c r h
    have hg : ¬ (numTruthy c = true ∧ numTruthy r = true) := by
      rcases h with h | h <;> simp [h]
    simp [handleRawMessage, hg]
  · intro st cv rv h1 h2 h3
    have hg : numTruthy (some cv) = true ∧ numTruthy (some rv) = true := by
      simp [numTruthy, h1, h2]
    have hres : ∀ p : PtyState, ptyResize p cv rv = p := by
      intro p
      have hne : ¬ (0 < cv ∧ 0 < rv) := by
        rcases h3 with h | h <;> (intro hc; omega)
      simp [ptyResize, ptyProcessResize, hne]
    obtain ⟨w, sid, co, pt⟩ := st
    constructor
    · cases pt with
      | none => simp [handleRawMessage, hg]
      | some p => simp [handleRawMessage, hg, hres]
    · simp [handleRawMessage, hg]

/-- Witness for claim C5 amended: a missing-cols resize and a negative-cols
resize at a concrete state. -/
theorem claim_C5_amended_witness :
    (numTruthy none = false ∨ numTruthy (some 24) = false) ∧
    handleRawMessage
        (ServerState.mk ⟨true, ["sandbox-default"], false⟩ "default" true
          (some freshPty)) (some (ClientMsg.resize none (some 24))) =
      (ServerState.mk ⟨true, ["sandbox-default"], false⟩ "default" true
        (some freshPty), [Effect.reportActivity]) ∧
    ((-1 : Int) ≤ 0 ∨ (24 : Int) ≤ 0) ∧
    (handleRawMessage
        (ServerState.mk ⟨true, ["sandbox-default"], false⟩ "default" true
          (some freshPty))
        (some (ClientMsg.resize (some (-1)) (some 24)))).1 =
      ServerState.mk ⟨true, ["sandbox-default"], false⟩ "default" true
        (some freshPty) :=
  ⟨Or.inl (by decide),
   claim_C5_amended.1 _ none (some 24) (Or.inl (by decide)),
   Or.inl (by decide),
   (claim_C5_amended.2 _ (-1) 24 (by decide) (by decide) (Or.inl (by decide))).1⟩

/-- Claim C6, evaluated on the code: starting with no tmux server, when the
first global mouse-set attempt fails and the second and third would have
succeeded, ensureDefaultSession still ends with the mouse mode disabled —
the code performs a single attempt and swallows the failure, with no retry
loop. -/
theorem claim_C6_single_attempt_eval :
    (ensureDefaultSession true [false, true, true]
        ⟨false, [], false⟩).sessions = ["sandbox-default"] ∧
    (ensureDefaultSession true [false, true, true]
        ⟨false, [], false⟩).mouseGlobal = false := by decide

/-- Claim C8: the adapter operations never propagate failures — exists is
false both when the server is unreachable and when the session is absent;
list returns the empty sequence when the server is unreachable or has no
sessions, and otherwise only tag-stripped names of live tagged sessions;
killing an absent session is a no-op rather than an error. -/
theorem claim_C8_adapter_total :
    (∀ (w : TmuxWorld) (name : String), w.reachable = false →
        tmuxSessionExists w name = false) ∧
    (∀ (w : TmuxWorld) (name : String), name ∉ w.sessions →
        tmuxSessionExists w name = false) ∧
    (∀ w : TmuxWorld, w.reachable = false ∨ w.sessions = [] →
        listTmuxSessions w = []) ∧
    (∀ (w : TmuxWorld) (s : String), s ∈ listTmuxSessions w →
        ∃ n ∈ w.sessions, n = sandboxTag ++ s) ∧
    (∀ (w : TmuxWorld) (sid : String),
        tmuxSessionExists w (derivedName sid) = false →
        killTmuxSession w sid = w) := by
  refine ⟨?_, ?_, ?_, listTmuxSessions_mem, killTmuxSession_absent⟩
  · intro w name h
    simp [tmuxSessionExists, execHasSession, h]
  · intro w name h
    simp [tmuxSessionExists, execHasSession, h]
  · intro w h
    have hc : ¬ (w.reachable = true ∧ w.sessions ≠ []) := by
      rcases h with h | h <;> simp [h]
    simp [listTmuxSessions, execListSessions, hc]

/-- Witness for claim C8 at concrete worlds: unreachable server, absent
session, empty listing, tag stripping, and kill of an absent session. -/
theorem claim_C8_adapter_total_witness :
    ((TmuxWorld.mk false [] false).reachable = false ∧
      tmuxSessionExists ⟨false, [], false⟩ "sandbox-x" = false) ∧
    ("sandbox-x" ∉ (TmuxWorld.mk true ["sandbox-default"] false).sessions ∧
      tmuxSessionExists ⟨true, ["sandbox-default"], false⟩ "sandbox-x" = false) ∧
    ((TmuxWorld.mk true [] false).sessions = [] ∧
      listTmuxSessions ⟨true, [], false⟩ = []) ∧
    ("abc" ∈ listTmuxSessions ⟨true, ["sandbox-abc"], false⟩ ∧
      ∃ n ∈ (TmuxWorld.mk true ["sandbox-abc"] false).sessions,
        n = sandboxTag ++ "abc") ∧
    (tmuxSessionExists ⟨true, ["other"], false⟩ (derivedName "gone") = false ∧
      killTmuxSession ⟨true, ["other"], false⟩ "gone" = ⟨true, ["other"], false⟩) :=
  ⟨⟨rfl, claim_C8_adapter_total.1 ⟨false, [], false⟩ "sandbox-x" rfl⟩,
   ⟨by decide, claim_C8_adapter_total.2.1 ⟨true, ["sandbox-default"], false⟩
      "sandbox-x" (by decide)⟩,
   ⟨rfl, claim_C8_adapter_total.2.2.1 ⟨true, [], false⟩ (Or.inr rfl)⟩,
   ⟨by decide, claim_C8_adapter_total.2.2.2.1 ⟨true, ["sandbox-abc"], false⟩
      "abc" (by decide)⟩,
   ⟨by decide, claim_C8_adapter_total.2.2.2.2 ⟨true, ["other"], false⟩
      "gone" (by decide)⟩⟩

/-- Counterexample to claim C9 as stated: with HOME unset in the
environment, the spawn working directory is `process.cwd()` — the
gateway's own working directory passed here as /opt/moltshell/app — not a
home directory, because the source reads `process.env.HOME || process.cwd()`. -/
theorem claim_C9_counterexample :
    (createPtyHandler true true ⟨true, ["sandbox-default"], false⟩ "default"
        ⟨none, some "/bin/bash"⟩ "linux" "/opt/moltshell/app").plan.cwd =
      "/opt/moltshell/app" := by decide

/-- The working directory of every spawn plan is the HOME-or-cwd fallback,
independently of the tmux decision and the spawn outcome. -/
theorem createPtyHandler_cwd (useTmux spawnOk : Bool) (w : TmuxWorld)
    (sid : String) (env : Env) (plat procCwd : String) :
    (createPtyHandler useTmux spawnOk w sid env plat procCwd).plan.cwd =
      spawnCwd env procCwd := by
  cases useTmux with
  | false => cases spawnOk <;> simp [createPtyHandler, ptySpawn]
  | true =>
    cases htse : tmuxSessionExists w (derivedName sid) <;>
      cases spawnOk <;> simp [createPtyHandler, ptySpawn, htse]

/-- Claim C9 amended: the spawned attachment process's working directory is
the HOME environment variable whenever it is set and nonempty; when HOME is
unset or empty the spawn falls back to the gateway process's own working
directory. -/
theorem claim_C9_amended (useTmux spawnOk : Bool) (w : TmuxWorld) (sid : String)
    (env : Env) (plat procCwd : String) :
    (∀ h, env.HOME = some h → h ≠ "" →
        (createPtyHandler useTmux spawnOk w sid env plat procCwd).plan.cwd = h) ∧
    ((env.HOME = none ∨ env.HOME = some "") →
        (createPtyHandler useTmux spawnOk w sid env plat procCwd).plan.cwd =
          procCwd) := by
  constructor
  · intro h hh hne
    rw [createPtyHandler_cwd]
    simp [spawnCwd, hh, hne]
  · intro hh
    rw [createPtyHandler_cwd]
    rcases hh with hh | hh <;> simp [spawnCwd, hh]

/-- Witness for claim C9 amended: with HOME set to /home/moltshell the
spawn working directory is /home/moltshell. -/
theorem claim_C9_amended_witness :
    (Env.mk (some "/home/moltshell") (some "/bin/bash")).HOME =
      some "/home/moltshell" ∧
    ("/home/moltshell" : String) ≠ "" ∧
    (createPtyHandler true true ⟨true, ["sandbox-default"], false⟩ "default"
        ⟨some "/home/moltshell", some "/bin/bash"⟩ "linux"
        "/opt/moltshell/app").plan.cwd = "/home/moltshell" :=
  ⟨rfl, by decide,
   (claim_C9_amended true true ⟨true, ["sandbox-default"], false⟩ "default"
      ⟨some "/home/moltshell", some "/bin/bash"⟩ "linux" "/opt/moltshell/app").1
     "/home/moltshell" rfl (by decide)⟩

/-- Claim C10: without tmux on the host, createPtyHandler still yields a
bridge by spawning the plain fallback shell (SHELL when set and nonempty,
else bash, or powershell.exe on win32) with no arguments; no multiplexed
session backs it — the tmux world is untouched, the derived session does
not exist, and the close-session kill has nothing durable to destroy. -/
theorem claim_C10_no_tmux_fallback (w : TmuxWorld) (sid : String) (env : Env)
    (plat procCwd : String) (h : w.reachable = false) :
    (createPtyHandler false true w sid env plat procCwd).pty = some freshPty ∧
    (createPtyHandler false true w sid env plat procCwd).plan.args = [] ∧
    (∀ s, env.SHELL = some s → s ≠ "" →
        (createPtyHandler false true w sid env plat procCwd).plan.file = s) ∧
    ((env.SHELL = none ∨ env.SHELL = some "") →
        (createPtyHandler false true w sid env plat procCwd).plan.file =
          (if plat = "win32" then "powershell.exe" else "bash")) ∧
    (createPtyHandler false true w sid env plat procCwd).world = w ∧
    tmuxSessionExists w (derivedName sid) = false ∧
    killTmuxSession w sid = w := by
  have htse : tmuxSessionExists w (derivedName sid) = false := by
    cases hb : tmuxSessionExists w (derivedName sid) with
    | false => rfl
    | true =>
      obtain ⟨hr, -⟩ := (tmuxSessionExists_iff w (derivedName sid)).mp hb
      rw [h] at hr
      cases hr
  refine ⟨?_, ?_, ?_, ?_, ?_, htse, killTmuxSession_absent w sid htse⟩
  · simp [createPtyHandler, ptySpawn]
  · simp [createPtyHandler, ptySpawn]
  · intro s hs hne
    simp [createPtyHandler, ptySpawn, shellFallback, hs, hne]
  · intro hs
    rcases hs with hs | hs <;>
      simp [createPtyHandler, ptySpawn, shellFallback, hs]
  · simp [createPtyHandler, ptySpawn]

/-- Witness for claim C10: tmux missing (unreachable world), SHELL set to
/bin/zsh — the bridge exists and the kill of the never-created derived
session changes nothing. -/
theorem claim_C10_no_tmux_fallback_witness :
    (TmuxWorld.mk false [] false).reachable = false ∧
    (createPtyHandler false true ⟨false, [], false⟩ "default"
        ⟨some "/home/moltshell", some "/bin/zsh"⟩ "linux" "/srv").pty =
      some freshPty ∧
    killTmuxSession ⟨false, [], false⟩ "default" = ⟨false, [], false⟩ :=
  ⟨rfl,
   (claim_C10_no_tmux_fallback ⟨false, [], false⟩ "default"
      ⟨some "/home/moltshell", some "/bin/zsh"⟩ "linux" "/srv" rfl).1,
   (claim_C10_no_tmux_fallback ⟨false, [], false⟩ "default"
      ⟨some "/home/moltshell", some "/bin/zsh"⟩ "linux" "/srv" rfl).2.2.2.2.2.2⟩

end TerminalServer
